import Mathlib

/-!
Shallow embedding of `src/app.py` (Streamlit sign-in-sheet tool).

Modelling conventions:
* A pandas `DataFrame` of attendees is a `List Row`; the fixed column set of
  the app is the fixed field set of the `Row` structure.
* The data directory is modelled by two lookup maps (`Metas`, `Tables`) for
  the `<id>_meta.json` and `<id>.csv` files, plus — for `list_events`, which
  iterates over the directory — an explicit directory listing `List Meta`
  in (arbitrary) `os.listdir` order.
* `None`/a missing or unparseable file is `Option.none`; `load_event_df` and
  `read_meta` swallow those exactly as the Python `try/except` blocks do.
* Wall-clock values (`datetime.now()`) and the fresh uuid are passed in as
  explicit string parameters.
* Python `str.strip()` is `pyStrip` below, and Python's lexicographic
  string comparison (used by the `list.sort` key) is the lexicographic
  order on the underlying code-point lists.
-/

namespace App

/-- Python `str.strip()`: drop leading and trailing whitespace. -/
def pyStrip (s : String) : String :=
  String.mk (((s.data.dropWhile Char.isWhitespace).reverse.dropWhile
    Char.isWhitespace).reverse)

/-- Event metadata, the content of `<id>_meta.json` (see `new_event` in
`src/app.py`).  A missing `created_at` key is modelled as `""`, matching the
`m.get("created_at", "")` reads in the script. -/
structure Meta where
  id : String
  title : String
  date : String
  location : String
  event_type : String
  created_at : String
deriving DecidableEq, Repr

/-- One attendee row; the fields are exactly the fixed column set of
`load_event_df`'s default frame:
`["event_type", "timestamp", "date", "name", "company", "photo_consent"]`. -/
structure Row where
  event_type : String
  timestamp : String
  date : String
  name : String
  company : String
  photo_consent : String
deriving DecidableEq, Repr

/-- The fixed attendee-table column names (header of the CSV/XLSX exports). -/
def attendeeColumns : List String :=
  ["event_type", "timestamp", "date", "name", "company", "photo_consent"]

/-- The per-event attendee CSV files: `none` models a missing or unparseable
`<id>.csv`. -/
abbrev Tables := String → Option (List Row)

/-- The per-event metadata files: `none` models a missing or unparseable
`<id>_meta.json`. -/
abbrev Metas := String → Option Meta

/-- `load_event_df` (src/app.py:77-84): read the event's CSV; on a missing
file or a parse failure fall back to the empty frame with the fixed
columns. -/
def load_event_df (t : Tables) (event_id : String) : List Row :=
  (t event_id).getD []

/-- `save_event_df` (src/app.py:87-88): rewrite the event's whole CSV. -/
def save_event_df (t : Tables) (event_id : String) (df : List Row) : Tables :=
  fun i => if i = event_id then some df else t i

/-- The zero-value metadata dict returned by `read_meta` on a soft miss
(src/app.py:182): the requested id plus empty data fields (the Python dict
simply lacks a `created_at` key, read back as `""`). -/
def emptyMeta (event_id : String) : Meta :=
  { id := event_id, title := "", date := "", location := "", event_type := "",
    created_at := "" }

/-- `read_meta` (src/app.py:174-182): stored metadata, or the zero-value
record when the file is missing or unparseable; never fails. -/
def read_meta (ms : Metas) (event_id : String) : Meta :=
  match ms event_id with
  | some m => m
  | none => emptyMeta event_id

/-- Result of `new_event`: the metadata it returns plus the updated stores. -/
structure CreateResult where
  meta : Meta
  metas : Metas
  tables : Tables

/-- `new_event` (src/app.py:149-171): build the metadata record with the
operator inputs trimmed, (re)write the event's CSV with its current loaded
content (an empty table for a fresh id), and persist the metadata.  The
fresh uuid hex prefix and the `created_at` timestamp are parameters. -/
def new_event (ms : Metas) (t : Tables) (freshId nowIso : String)
    (title date location event_type : String) : CreateResult :=
  let meta : Meta :=
    { id := freshId, title := pyStrip title, date := pyStrip date,
      location := pyStrip location, event_type := pyStrip event_type,
      created_at := nowIso }
  { meta := meta
    metas := fun i => if i = freshId then some meta else ms i
    tables := save_event_df t freshId (load_event_df t freshId) }

/-- Sort key of `list_events`: `m.get("created_at", "")`, as the list of
code points Python's string comparison operates on (a missing `created_at`
is the empty string, i.e. the empty key `[]`). -/
def createdKey (m : Meta) : List Char := m.created_at.data

/-- Stable insertion of one record into a list already sorted by
`createdKey` descending: the inserted element goes before records with an
equal key only when it precedes them in the original order (matching the
stability of Python `list.sort(..., reverse=True)`). -/
def insertDesc (x : Meta) : List Meta → List Meta
  | [] => [x]
  | y :: ys =>
    if createdKey x < createdKey y then y :: insertDesc x ys
    else x :: y :: ys

/-- Stable sort by `createdKey` descending, the effect of
`items.sort(key=lambda m: m.get("created_at", ""), reverse=True)`. -/
def sortByCreatedDesc : List Meta → List Meta
  | [] => []
  | x :: xs => insertDesc x (sortByCreatedDesc xs)

/-- `list_events` (src/app.py:185-195): collect every readable
`*_meta.json` (the listing parameter, in directory order; unreadable files
are already skipped) and sort by `created_at` descending. -/
def list_events (listing : List Meta) : List Meta :=
  sortByCreatedDesc listing

/-- Outcome shown to the submitter by the form view. -/
inductive FormResult where
  | rejected (message : String)
  | accepted
deriving DecidableEq, Repr

/-- The fallback event type used when the stored one is falsy
(src/app.py:335). -/
def defaultEventType : String := "Feuerlöschtraining"

/-- `pretype` (src/app.py:335):
`(meta.get("event_type", "") or "Feuerlöschtraining").strip()` — Python
`or` picks the fallback exactly when the stored string is empty. -/
def pretypeOf (m : Meta) : String :=
  pyStrip (if m.event_type = "" then defaultEventType else m.event_type)

/-- Result of one form submission: what the submitter sees plus the
resulting persistent state. -/
structure SubmitOutcome where
  result : FormResult
  tables : Tables

/-- The form-submit block (src/app.py:345-364): reject with one combined
error when `name` or `company` is empty after trimming, leaving the store
untouched; otherwise build the row (trimmed name/company, wall-clock
timestamp and date, the pre-filled `pretype`, the selected consent), append
it to the loaded frame and rewrite the CSV. -/
def submit_form (ms : Metas) (t : Tables) (event_id : String)
    (name company photo_consent nowIso nowDate : String) : SubmitOutcome :=
  let df := load_event_df t event_id
  let meta := read_meta ms event_id
  let pretype := pretypeOf meta
  if pyStrip name = "" ∨ pyStrip company = "" then
    { result := .rejected "Bitte alle Pflichtfelder ausfüllen.", tables := t }
  else
    let row : Row :=
      { event_type := pretype, timestamp := nowIso, date := nowDate,
        name := pyStrip name, company := pyStrip company,
        photo_consent := photo_consent }
    { result := .accepted, tables := save_event_df t event_id (df ++ [row]) }

/-- The export payload: header row plus one row per attendee, values as
stored.  Both the CSV and the XLSX download serialise exactly these rows
(src/app.py:91-96 and 403-417); the byte-level container encodings are
external collaborators and not modelled. -/
def export_rows (df : List Row) : List (List String) :=
  attendeeColumns ::
    df.map fun r =>
      [r.event_type, r.timestamp, r.date, r.name, r.company, r.photo_consent]

/-- What the admin view renders for one event (src/app.py:383-417):
metadata, the current table, the entry count metric, both exports. -/
structure EventPanel where
  meta : Meta
  table : List Row
  count : Nat
  csvExport : List (List String)
  xlsxExport : List (List String)
deriving DecidableEq, Repr

/-- Admin view outcome: denied (error + stop, nothing rendered) or the
roster of every event. -/
inductive AdminOutput where
  | denied
  | roster (panels : List EventPanel)
deriving DecidableEq, Repr

/-- The admin block (src/app.py:372-435): `admin_key != ADMIN_KEY` stops
with an access error before anything event-related is rendered; otherwise
every event of `list_events` is rendered with table, count and exports. -/
def render_admin (adminSecret suppliedKey : String) (listing : List Meta)
    (t : Tables) : AdminOutput :=
  if suppliedKey ≠ adminSecret then .denied
  else
    .roster ((list_events listing).map fun m =>
      let df := load_event_df t m.id
      { meta := m, table := df, count := df.length,
        csvExport := export_rows df, xlsxExport := export_rows df })

/-- Where the top-level script dispatches a request. -/
inductive Route where
  | home
  | formView (event_id : String)
  | adminView
  | blank
deriving DecidableEq, Repr

/-- The top-level dispatch of src/app.py over the (already extracted)
`event`, `mode`, `noredirect` parameters.  `_pick_param` maps an absent or
empty `event` to `None` (modelled `none`) and an absent `mode`/`noredirect`
to `""`.  The auto-redirect block (src/app.py:262-268) fires first: no
event, no mode, no `noredirect` and a non-empty event list reruns the
script with the most recent event's form parameters, i.e. it lands on that
event's form view.  Then, in order: the home page (src/app.py:274-325), the
form view (331-366), the admin view (372-435); any other combination
renders nothing beyond the header (`blank`). -/
def route (event_id : Option String) (mode noredirect : String)
    (listing : List Meta) : Route :=
  match event_id, mode with
  | none, "" =>
    if noredirect = "" then
      match (list_events listing).head? with
      | some latest => .formView latest.id
      | none => .home
    else .home
  | some eid, m =>
    if m = "form" then .formView eid
    else if m = "admin" then .adminView
    else .blank
  | none, m =>
    if m = "admin" then .adminView else .blank

/-- State of the lost-update scenario of §5: the persisted table plus the
frame each of two submitters has loaded so far (`df = load_event_df(...)`
runs at form render time, before `save_event_df` at submit time). -/
structure RaceState where
  table : List Row
  buf1 : List Row
  buf2 : List Row
deriving DecidableEq, Repr

/-- The four atomic actions of two interleaved submissions: each submission
is a load (src/app.py:333) followed by a rewrite of the whole table with
its own row appended (src/app.py:358-359). -/
inductive RaceStep where
  | load1
  | load2
  | save1
  | save2
deriving DecidableEq, Repr

/-- Effect of one atomic action, `r1`/`r2` being the rows the two
submitters append. -/
def raceStep (r1 r2 : Row) (s : RaceState) : RaceStep → RaceState
  | .load1 => { s with buf1 := s.table }
  | .load2 => { s with buf2 := s.table }
  | .save1 => { s with table := s.buf1 ++ [r1] }
  | .save2 => { s with table := s.buf2 ++ [r2] }

/-- Run a schedule (an interleaving) of the two submissions' actions. -/
def runRace (r1 r2 : Row) (s : RaceState) (steps : List RaceStep) : RaceState :=
  steps.foldl (raceStep r1 r2) s

/-- One whole submission executed atomically (the single-threaded case):
load, append, rewrite. -/
def appendAttendee (t : Tables) (event_id : String) (r : Row) : Tables :=
  save_event_df t event_id (load_event_df t event_id ++ [r])

/-- Runs N sequential (non-interleaved) submissions against one event. -/
def seqSubmits (t : Tables) (event_id : String) (rows : List Row) : Tables :=
  rows.foldl (fun acc r => appendAttendee acc event_id r) t

/-- The empty data directory: no CSV files. -/
def emptyTables : Tables := fun _ => none

/-- The empty data directory: no metadata files. -/
def emptyMetas : Metas := fun _ => none

/-- A concrete stored event used to instantiate theorems. -/
def sampleMeta : Meta :=
  { id := "abc123", title := "Feuerlöschtraining Nord", date := "01.01.2024",
    location := "Wache Nord", event_type := "Feuerlöschtraining",
    created_at := "2024-01-01T10:00:00" }

/-- A second concrete event, created after `sampleMeta`. -/
def sampleMeta2 : Meta :=
  { id := "def456", title := "Brandschutzhelfer", date := "02.01.2024",
    location := "Wache Nord", event_type := "Brandschutzhelfer-Seminar",
    created_at := "2024-01-02T10:00:00" }

/-- A third concrete event, created after `sampleMeta2`. -/
def sampleMeta3 : Meta :=
  { id := "ghi789", title := "Feuerlöschtraining Süd", date := "03.01.2024",
    location := "Wache Süd", event_type := "Feuerlöschtraining",
    created_at := "2024-01-03T10:00:00" }

/-- An event record whose `created_at` key is missing (read back as `""`). -/
def sampleMetaNoCreated : Meta :=
  { id := "jkl012", title := "Alt", date := "", location := "",
    event_type := "Feuerlöschtraining", created_at := "" }

/-- A concrete attendee row. -/
def sampleRowA : Row :=
  { event_type := "Feuerlöschtraining", timestamp := "2024-01-01T11:00:00",
    date := "01.01.2024", name := "Anna", company := "Stadtwerke",
    photo_consent := "Ja" }

/-- Another concrete attendee row. -/
def sampleRowB : Row :=
  { event_type := "Feuerlöschtraining", timestamp := "2024-01-01T11:00:05",
    date := "01.01.2024", name := "Bernd", company := "Bauhof",
    photo_consent := "Nein" }

/-- A metadata store holding exactly `sampleMeta`. -/
def oneMetas : Metas := fun i => if i = "abc123" then some sampleMeta else none

/-- A table store holding one attendee row for `sampleMeta`'s event. -/
def oneTables : Tables :=
  fun i => if i = "abc123" then some [sampleRowA] else none

end App

namespace App

theorem load_save (t : Tables) (eid : String) (df : List Row) :
    load_event_df (save_event_df t eid df) eid = df := by
  simp [load_event_df, save_event_df]

theorem submit_form_accepted (ms : Metas) (t : Tables)
    (eid name company pc ts d : String)
    (hname : pyStrip name ≠ "") (hcompany : pyStrip company ≠ "") :
    submit_form ms t eid name company pc ts d =
      { result := .accepted,
        tables := save_event_df t eid (load_event_df t eid ++
          [{ event_type := pretypeOf (read_meta ms eid), timestamp := ts,
             date := d, name := pyStrip name, company := pyStrip company,
             photo_consent := pc }]) } := by
  simp [submit_form, hname, hcompany]

/-- Claim C1: a Form-view submission whose name and company are non-empty
after trimming and whose photo-consent selection is made is accepted, and
the persisted attendee table for that event grows by exactly one row, whose
`name` and `company` are the trimmed inputs and whose `photo_consent` is
the selected value. -/
theorem C1_valid_submission_appends_one_row
    (ms : Metas) (t : Tables) (eid name company pc ts d : String)
    (hname : pyStrip name ≠ "") (hcompany : pyStrip company ≠ "")
    (hpc : pc = "Ja" ∨ pc = "Nein") :
    (submit_form ms t eid name company pc ts d).result = .accepted ∧
    load_event_df (submit_form ms t eid name company pc ts d).tables eid =
      load_event_df t eid ++
        [{ event_type := pretypeOf (read_meta ms eid), timestamp := ts,
           date := d, name := pyStrip name, company := pyStrip company,
           photo_consent := pc }] ∧
    (load_event_df (submit_form ms t eid name company pc ts d).tables eid).length =
      (load_event_df t eid).length + 1 := by
  rw [submit_form_accepted ms t eid name company pc ts d hname hcompany]
  refine ⟨rfl, by rw [load_save], by rw [load_save]; simp⟩

/-- Witness for C1: a concrete valid submission against an empty store. -/
theorem C1_witness :
    (submit_form emptyMetas emptyTables "e1" " Max Muster " " ACME GmbH "
        "Ja" "2024-01-01T10:00:00" "01.01.2024").result = .accepted ∧
    load_event_df (submit_form emptyMetas emptyTables "e1" " Max Muster "
        " ACME GmbH " "Ja" "2024-01-01T10:00:00" "01.01.2024").tables "e1" =
      load_event_df emptyTables "e1" ++
        [{ event_type := pretypeOf (read_meta emptyMetas "e1"),
           timestamp := "2024-01-01T10:00:00", date := "01.01.2024",
           name := pyStrip " Max Muster ", company := pyStrip " ACME GmbH ",
           photo_consent := "Ja" }] ∧
    (load_event_df (submit_form emptyMetas emptyTables "e1" " Max Muster "
        " ACME GmbH " "Ja" "2024-01-01T10:00:00" "01.01.2024").tables "e1").length =
      (load_event_df emptyTables "e1").length + 1 :=
  C1_valid_submission_appends_one_row emptyMetas emptyTables "e1"
    " Max Muster " " ACME GmbH " "Ja" "2024-01-01T10:00:00" "01.01.2024"
    (by decide) (by decide) (Or.inl rfl)

/-- Claim C2: a submission whose name or company is empty after trimming is
rejected with the combined validation error, and the store is returned
untouched — no row appended, no file rewritten. -/
theorem C2_empty_required_field_rejected
    (ms : Metas) (t : Tables) (eid name company pc ts d : String)
    (h : pyStrip name = "" ∨ pyStrip company = "") :
    submit_form ms t eid name company pc ts d =
      { result := .rejected "Bitte alle Pflichtfelder ausfüllen.",
        tables := t } := by
  rcases h with h | h <;> simp [submit_form, h]

/-- Witness for C2: a whitespace-only name against a non-empty store. -/
theorem C2_witness :
    submit_form oneMetas oneTables "abc123" "   " "ACME" "Ja"
        "2024-01-01T12:00:00" "01.01.2024" =
      { result := .rejected "Bitte alle Pflichtfelder ausfüllen.",
        tables := oneTables } :=
  C2_empty_required_field_rejected oneMetas oneTables "abc123" "   " "ACME"
    "Ja" "2024-01-01T12:00:00" "01.01.2024" (Or.inl (by decide))

/-- Claim C6: `read_meta` on an id with no stored metadata record returns
the zero-value record — the requested id with all data fields empty — and,
being a total function, never fails. -/
theorem C6_read_meta_soft_miss (ms : Metas) (eid : String)
    (h : ms eid = none) :
    read_meta ms eid =
      { id := eid, title := "", date := "", location := "", event_type := "",
        created_at := "" } := by
  simp [read_meta, h, emptyMeta]

/-- Witness for C6: an unknown id against the store holding `sampleMeta`. -/
theorem C6_witness :
    read_meta oneMetas "zzz999" =
      { id := "zzz999", title := "", date := "", location := "",
        event_type := "", created_at := "" } :=
  C6_read_meta_soft_miss oneMetas "zzz999" (by decide)

/-- Claim C7 as stated is false: `new_event` persists the *trimmed* inputs,
so `read_meta` after `create` differs from an input carrying surrounding
whitespace.  Concretely, creating with title `" Brandschutz "` reads back
`"Brandschutz"`. -/
theorem C7_counterexample :
    (read_meta (new_event emptyMetas emptyTables "e1" "2024-01-01T10:00:00"
        " Brandschutz " "01.01.2024" "Wache Nord"
        "Brandschutzhelfer-Seminar").metas "e1").title ≠ " Brandschutz " := by
  decide

/-- Claim C7 amended: `read_meta` on a freshly created event returns
exactly the `title`/`date`/`location`/`event_type` passed to `create`
*after trimming* (so the values themselves whenever the inputs carry no
surrounding whitespace), plus the id and creation timestamp. -/
theorem C7_amended_create_read_roundtrip
    (ms : Metas) (t : Tables)
    (freshId nowIso title date location event_type : String) :
    read_meta (new_event ms t freshId nowIso title date location
        event_type).metas freshId =
      { id := freshId, title := pyStrip title, date := pyStrip date,
        location := pyStrip location, event_type := pyStrip event_type,
        created_at := nowIso } := by
  simp [new_event, read_meta]

/-- Claim C10: a valid submission against an id with no stored attendee
table and no stored metadata still succeeds and creates a one-row table
for that id (the fixed column set being the field set of `Row`; the
`event_type` falls back to the default since no metadata exists). -/
theorem C10_unknown_id_submission_creates_table
    (ms : Metas) (t : Tables) (eid name company pc ts d : String)
    (hm : ms eid = none) (ht : t eid = none)
    (hname : pyStrip name ≠ "") (hcompany : pyStrip company ≠ "") :
    (submit_form ms t eid name company pc ts d).result = .accepted ∧
    (submit_form ms t eid name company pc ts d).tables eid =
      some [{ event_type := defaultEventType, timestamp := ts, date := d,
              name := pyStrip name, company := pyStrip company,
              photo_consent := pc }] := by
  have hp : pretypeOf (read_meta ms eid) = defaultEventType := by
    have : pyStrip defaultEventType = defaultEventType := by decide
    simp [read_meta, hm, pretypeOf, emptyMeta, this]
  rw [submit_form_accepted ms t eid name company pc ts d hname hcompany]
  refine ⟨rfl, ?_⟩
  simp [save_event_df, load_event_df, ht, hp]

/-- Witness for C10: a fresh id in the empty store ends up with exactly one
persisted row. -/
theorem C10_witness :
    (submit_form emptyMetas emptyTables "stale0" " Max " " ACME " "Nein"
        "2024-02-02T09:00:00" "02.02.2024").result = .accepted ∧
    (submit_form emptyMetas emptyTables "stale0" " Max " " ACME " "Nein"
        "2024-02-02T09:00:00" "02.02.2024").tables "stale0" =
      some [{ event_type := defaultEventType,
              timestamp := "2024-02-02T09:00:00", date := "02.02.2024",
              name := pyStrip " Max ", company := pyStrip " ACME ",
              photo_consent := "Nein" }] :=
  C10_unknown_id_submission_creates_table emptyMetas emptyTables "stale0"
    " Max " " ACME " "Nein" "2024-02-02T09:00:00" "02.02.2024"
    rfl rfl (by decide) (by decide)

/-- Claim C3 as stated is false: under the interleaving in which both
submitters load the table before either rewrite, 2 concurrent submissions
persist only 1 record — the second rewrite silently drops the first
append (lost update). -/
theorem C3_counterexample :
    (runRace sampleRowA sampleRowB ⟨[], [], []⟩
        [.load1, .load2, .save1, .save2]).table = [sampleRowB] ∧
    ¬ (runRace sampleRowA sampleRowB ⟨[], [], []⟩
        [.load1, .load2, .save1, .save2]).table.length = 2 := by
  decide

/-- Claim C3 amended: only when the two submissions do not interleave
(each load immediately followed by its own rewrite, the single-threaded
processing model the script assumes) are both rows kept, and in general N
sequential submissions grow the persisted table by exactly N rows. -/
theorem C3_amended_sequential_submissions_all_persist
    (r1 r2 : Row) (t0 b1 b2 : List Row) :
    (runRace r1 r2 ⟨t0, b1, b2⟩
        [.load1, .save1, .load2, .save2]).table = t0 ++ [r1] ++ [r2] ∧
    ∀ (t : Tables) (eid : String) (rows : List Row),
      (load_event_df (seqSubmits t eid rows) eid).length =
        (load_event_df t eid).length + rows.length := by
  constructor
  · simp [runRace, raceStep]
  · intro t eid rows
    induction rows generalizing t with
    | nil => simp [seqSubmits]
    | cons r rs ih =>
      have hstep : seqSubmits t eid (r :: rs) =
          seqSubmits (appendAttendee t eid r) eid rs := rfl
      rw [hstep, ih, appendAttendee, load_save]
      simp
      omega

/-- Claim C4: the admin view grants access exactly on case-sensitive string
equality of the supplied key with the configured secret, rendering the
roster (metadata, table, count, both exports) of every event; any other key
is denied, and the denied response is one constant independent of the
stored events, so it leaks nothing about event existence. -/
theorem C4_admin_key_exact_match
    (secret key : String) (listing : List Meta) (t : Tables) :
    (key = secret →
      render_admin secret key listing t =
        .roster ((list_events listing).map fun m =>
          { meta := m, table := load_event_df t m.id,
            count := (load_event_df t m.id).length,
            csvExport := export_rows (load_event_df t m.id),
            xlsxExport := export_rows (load_event_df t m.id) })) ∧
    (key ≠ secret →
      render_admin secret key listing t = .denied ∧
      ∀ (listing2 : List Meta) (t2 : Tables),
        render_admin secret key listing2 t2 = .denied) := by
  constructor
  · intro h
    simp [render_admin, h]
  · intro h
    exact ⟨by simp [render_admin, h], fun _ _ => by simp [render_admin, h]⟩

/-- Witness for C4: the default secret `"112"` grants access; the key
`"112 "` (one trailing blank, not exactly equal) is denied, with the same
constant response whether or not any event exists. -/
theorem C4_witness :
    render_admin "112" "112" [sampleMeta] oneTables =
      .roster ((list_events [sampleMeta]).map fun m =>
        { meta := m, table := load_event_df oneTables m.id,
          count := (load_event_df oneTables m.id).length,
          csvExport := export_rows (load_event_df oneTables m.id),
          xlsxExport := export_rows (load_event_df oneTables m.id) }) ∧
    render_admin "112" "112 " [sampleMeta] oneTables = .denied ∧
    render_admin "112" "112 " [] emptyTables = .denied :=
  ⟨(C4_admin_key_exact_match "112" "112" [sampleMeta] oneTables).1 rfl,
   ((C4_admin_key_exact_match "112" "112 " [sampleMeta] oneTables).2
      (by decide)).1,
   ((C4_admin_key_exact_match "112" "112 " [sampleMeta] oneTables).2
      (by decide)).2 [] emptyTables⟩

end App

namespace App

theorem insertDesc_perm (x : Meta) (l : List Meta) :
    (insertDesc x l).Perm (x :: l) := by
  induction l with
  | nil => exact List.Perm.refl _
  | cons y ys ih =>
    by_cases h : createdKey x < createdKey y
    · simp only [insertDesc, if_pos h]
      exact (ih.cons y).trans (List.Perm.swap x y ys)
    · simp only [insertDesc, if_neg h]
      exact List.Perm.refl _

theorem sortByCreatedDesc_perm (l : List Meta) :
    (sortByCreatedDesc l).Perm l := by
  induction l with
  | nil => exact List.Perm.refl _
  | cons x xs ih => exact (insertDesc_perm x _).trans (ih.cons x)

theorem insertDesc_pairwise (x : Meta) (l : List Meta)
    (h : l.Pairwise fun a b => ¬ createdKey a < createdKey b) :
    (insertDesc x l).Pairwise fun a b => ¬ createdKey a < createdKey b := by
  induction l with
  | nil => simp [insertDesc]
  | cons y ys ih =>
    rcases List.pairwise_cons.mp h with ⟨hy, hys⟩
    by_cases hxy : createdKey x < createdKey y
    · simp only [insertDesc, if_pos hxy]
      refine List.pairwise_cons.mpr ⟨?_, ih hys⟩
      intro z hz
      rcases List.mem_cons.mp ((insertDesc_perm x ys).mem_iff.mp hz) with
        rfl | hz2
      · exact lt_asymm hxy
      · exact hy z hz2
    · simp only [insertDesc, if_neg hxy]
      refine List.pairwise_cons.mpr ⟨?_, h⟩
      intro z hz
      rcases List.mem_cons.mp hz with rfl | hz2
      · exact hxy
      · exact not_lt.mpr (le_trans (not_lt.mp (hy z hz2)) (not_lt.mp hxy))

theorem sortByCreatedDesc_pairwise (l : List Meta) :
    (sortByCreatedDesc l).Pairwise fun a b => ¬ createdKey a < createdKey b := by
  induction l with
  | nil => simp [sortByCreatedDesc]
  | cons x xs ih => exact insertDesc_pairwise x _ ih

theorem key_eq_nil_of_not_nil_lt {k : List Char}
    (h : ¬ ([] : List Char) < k) : k = [] := by
  cases k with
  | nil => rfl
  | cons a as => exact absurd (List.nil_lt_cons a as) h

/-- Claim C5: `list_events` returns exactly the stored (readable) metadata
records — a permutation of the directory listing — sorted by `created_at`
descending; every record whose `created_at` is missing carries the empty
key and so only empty-key records may follow it (missing timestamps sort
last); and three events created in order with increasing timestamps come
back most-recent-first. -/
theorem C5_list_events_sorted_desc
    (listing : List Meta) (e1 e2 e3 : Meta)
    (h12 : createdKey e1 < createdKey e2)
    (h23 : createdKey e2 < createdKey e3) :
    (list_events listing).Perm listing ∧
    (list_events listing).Pairwise
      (fun a b => ¬ createdKey a < createdKey b) ∧
    (list_events listing).Pairwise
      (fun a b => createdKey a = [] → createdKey b = []) ∧
    list_events [e1, e2, e3] = [e3, e2, e1] := by
  refine ⟨sortByCreatedDesc_perm listing, sortByCreatedDesc_pairwise listing,
    ?_, ?_⟩
  · exact (sortByCreatedDesc_pairwise listing).imp
      (fun h he => key_eq_nil_of_not_nil_lt (he ▸ h))
  · have h13 : createdKey e1 < createdKey e3 := lt_trans h12 h23
    simp [list_events, sortByCreatedDesc, insertDesc, h12, h23, h13]

/-- Witness for C5: three concrete events created on successive days, fed
to `list_events` in creation order, plus a listing that also contains a
record with a missing `created_at`. -/
theorem C5_witness :
    (list_events [sampleMetaNoCreated, sampleMeta2]).Perm
      [sampleMetaNoCreated, sampleMeta2] ∧
    (list_events [sampleMetaNoCreated, sampleMeta2]).Pairwise
      (fun a b => ¬ createdKey a < createdKey b) ∧
    (list_events [sampleMetaNoCreated, sampleMeta2]).Pairwise
      (fun a b => createdKey a = [] → createdKey b = []) ∧
    list_events [sampleMeta, sampleMeta2, sampleMeta3] =
      [sampleMeta3, sampleMeta2, sampleMeta] :=
  C5_list_events_sorted_desc [sampleMetaNoCreated, sampleMeta2]
    sampleMeta sampleMeta2 sampleMeta3 (by decide) (by decide)

/-- Claim C8 as stated is false: with no `event` and no `mode` but an
existing event, the script does not show the Home view — the auto-redirect
block sends the request to the most recently created event's form view. -/
theorem C8_counterexample :
    route none "" "" [sampleMeta] = .formView "abc123" ∧
    route none "" "" [sampleMeta] ≠ .home := by
  decide

/-- Claim C8 amended: a request with neither `event` nor `mode` reaches the
Home view only when no event exists or the `noredirect` parameter is set;
otherwise it is auto-redirected to the form view of the most recently
created event. -/
theorem C8_amended_home_dispatch
    (listing : List Meta) (noredirect : String) (latest : Meta)
    (rest : List Meta) (hn : noredirect ≠ "")
    (hl : list_events listing = latest :: rest) :
    route none "" "" [] = .home ∧
    route none "" noredirect listing = .home ∧
    route none "" "" listing = .formView latest.id := by
  refine ⟨rfl, ?_, ?_⟩
  · simp [route, hn]
  · simp [route, hl]

/-- Witness for C8 amended: the empty listing, `noredirect=1`, and the
one-event listing redirecting to that event's form. -/
theorem C8_amended_witness :
    route none "" "" [] = .home ∧
    route none "" "1" [sampleMeta] = .home ∧
    route none "" "" [sampleMeta] = .formView sampleMeta.id :=
  C8_amended_home_dispatch [sampleMeta] "1" sampleMeta [] (by decide)
    (by decide)

/-- Claim C9 as stated is false: an accepted submission against an event id
with no stored metadata appends the fallback `event_type`
`"Feuerlöschtraining"`, which differs from the (soft-miss) metadata's empty
`event_type`. -/
theorem C9_counterexample :
    (load_event_df (submit_form emptyMetas emptyTables "e1" "Max" "ACME"
        "Ja" "2024-01-01T10:00:00" "01.01.2024").tables "e1").map
        Row.event_type = ["Feuerlöschtraining"] ∧
    (read_meta emptyMetas "e1").event_type = "" ∧
    ¬ (load_event_df (submit_form emptyMetas emptyTables "e1" "Max" "ACME"
        "Ja" "2024-01-01T10:00:00" "01.01.2024").tables "e1").map
        Row.event_type = [(read_meta emptyMetas "e1").event_type] := by
  decide

/-- Claim C9 amended: the appended row's `event_type` is the stored
event type run through the fallback-and-trim of `pretype`; whenever the
owning event's metadata exists with a non-empty, already-trimmed
`event_type` (as every record written by `new_event` from a non-blank
selection is), the appended row copies it exactly — pre-filled from the
Event, not entered by the attendee. -/
theorem C9_amended_event_type_copied
    (ms : Metas) (t : Tables) (eid name company pc ts d : String) (m : Meta)
    (hm : ms eid = some m) (hne : m.event_type ≠ "")
    (htrim : pyStrip m.event_type = m.event_type)
    (hname : pyStrip name ≠ "") (hcompany : pyStrip company ≠ "") :
    load_event_df (submit_form ms t eid name company pc ts d).tables eid =
      load_event_df t eid ++
        [{ event_type := (read_meta ms eid).event_type, timestamp := ts,
           date := d, name := pyStrip name, company := pyStrip company,
           photo_consent := pc }] := by
  have hr : read_meta ms eid = m := by simp [read_meta, hm]
  have hp : pretypeOf (read_meta ms eid) = (read_meta ms eid).event_type := by
    rw [hr]
    simp [pretypeOf, hne, htrim]
  rw [submit_form_accepted ms t eid name company pc ts d hname hcompany]
  rw [load_save, hp]

/-- Witness for C9 amended: a valid submission against `sampleMeta`'s
event copies its stored `event_type` into the appended row. -/
theorem C9_amended_witness :
    load_event_df (submit_form oneMetas oneTables "abc123" " Clara "
        " Klinikum " "Ja" "2024-01-01T12:00:00" "01.01.2024").tables
        "abc123" =
      load_event_df oneTables "abc123" ++
        [{ event_type := (read_meta oneMetas "abc123").event_type,
           timestamp := "2024-01-01T12:00:00", date := "01.01.2024",
           name := pyStrip " Clara ", company := pyStrip " Klinikum ",
           photo_consent := "Ja" }] :=
  C9_amended_event_type_copied oneMetas oneTables "abc123" " Clara "
    " Klinikum " "Ja" "2024-01-01T12:00:00" "01.01.2024" sampleMeta
    (by decide) (by decide) (by decide) (by decide) (by decide)

end App
